import Mathlib

/-!
Verification of the session-orchestration core of the Sylvia learning
facilitator app (`src/app.py`): turn composition for model calls, the
tool/config builder, the model gateway wrapper, and session
persistence (save / load / export / clear / send).

The Python source is embedded shallowly: Streamlit session state
becomes an explicit `AppState`; Python list aliasing (several names
bound to one list object) is modelled by a heap of message lists
addressed by indices; wall-clock reads (`time.time()`,
`datetime.now()`) become explicit `Int` parameters; the external
Gemini call becomes an oracle function producing either a response
value or a raised exception.
-/

namespace Sylvia

/-- Chat roles as stored in `st.session_state.messages` (`"user"` / `"assistant"`). -/
inductive Role where
  | user
  | assistant
deriving DecidableEq, Repr

/-- One entry of `st.session_state.messages`: `{"role": ..., "content": ...}`. -/
structure ChatMessage where
  role : Role
  content : String
deriving DecidableEq, Repr

/-- `types.Part(text=...)` as built by `call_model` (only the text field is used). -/
structure Part where
  text : String
deriving DecidableEq, Repr

/-- Tools that `call_model` can enable (`types.Tool(google_search=...)`). -/
inductive Tool where
  | googleSearch
deriving DecidableEq, Repr

/-- `types.GenerateContentConfig` as constructed in `call_model` (app.py:419-425). -/
structure GenerateContentConfig where
  system_instruction : String
  tools : Option (List Tool)
  thinking_budget : Int
  temperature : Rat
  max_output_tokens : Int
deriving DecidableEq, Repr

/-- `COACH_PROMPTS` (app.py:257-295): static catalog of one-shot coaching nudges.
Adjacent Python string literals are concatenated as in the source. -/
def COACH_PROMPTS : List (String × String) :=
  [ ("goal",
      "SRL coaching: Help the learner articulate 1–3 mastery goals (SMART-ish). Ask what they want to learn or master beyond ‘finishing the assignment’. Negotiate 1–2 observable criteria of success. Close by asking them to confirm."),
    ("taskanalysis",
      "SRL coaching: Prompt for task requirements, rubric, due date, and constraints. Elicit prior knowledge and uncertainties. Summarize a short actionable plan."),
    ("strategies",
      "SRL coaching: Offer 3–5 tailored strategies for the task, time available, and goals. Ask the learner to pick 1–2 to try first and specify when to start."),
    ("motivation",
      "SRL coaching: Brief value/interest reframe. Ask what matters to them and why. Suggest a 2-minute starter step to build momentum."),
    ("timelog",
      "SRL coaching: Log time-on-task, propose a realistic schedule (e.g., Pomodoro), and negotiate the next 25-minute block with a concrete micro-goal."),
    ("resources",
      "SRL coaching: With the learner’s permission, suggest 3–5 credible, level-appropriate resources aligned to goals. Summarize why each is helpful."),
    ("reflection",
      "SRL coaching: Prompt reflection on outcomes, strategies, obstacles, emotions, effort. Extract 1 insight and 1 improvement for next time."),
    ("feedback",
      "SRL coaching: Model an effective feedback request. Offer a short checklist the learner can use before submission."),
    ("save",
      "SRL coaching: Write a concise session summary: goals, steps taken, time used, takeaways, next step. Then confirm saving.") ]

/-- Dictionary lookup `COACH_PROMPTS[coach_mode]`. -/
def coachLookup (k : String) : Option String :=
  COACH_PROMPTS.lookup k

/-- The coach-prompt segment of the composed request (app.py:430-432):
`if coach_mode and coach_mode in COACH_PROMPTS: parts.append(...)`.
Python truthiness: `None` and the empty string both skip the segment. -/
def nudgeParts : Option String → List Part
  | none => []
  | some m =>
    if m = "" then []
    else
      match coachLookup m with
      | some p => [Part.mk ("[Coach Instruction]\n" ++ p)]
      | none => []

/-- One transcript line as rendered into a part (app.py:437-438):
`prefix = "User: " if role == "user" else "Assistant: "`. -/
def renderMsg (m : ChatMessage) : Part :=
  Part.mk ((if m.role = Role.user then "User: " else "Assistant: ") ++ m.content)

/-- The history block of the composed request (app.py:434-438):
`recent_msgs = st.session_state.messages[-16:]`, one part per message. -/
def historyParts (messages : List ChatMessage) : List Part :=
  (messages.drop (messages.length - 16)).map renderMsg

/-- `call_model`'s parts construction (app.py:427-441), kept in the source's
imperative append order: optional coach prompt, then the last sixteen
transcript messages, then `"User: " + user_message`. -/
def composeParts (coach_mode : Option String) (messages : List ChatMessage)
    (user_message : String) : List Part :=
  let parts : List Part := []
  let parts := parts ++ nudgeParts coach_mode
  let parts := (messages.drop (messages.length - 16)).foldl
    (fun acc msg => acc ++ [renderMsg msg]) parts
  parts ++ [Part.mk ("User: " ++ user_message)]

/-- The tool list built in `call_model` (app.py:413-416):
`tools = []; if use_search_tool: tools.append(types.Tool(google_search=...))`. -/
def buildTools (use_search_tool : Bool) : List Tool :=
  if use_search_tool then [Tool.googleSearch] else []

/-- The generation config built in `call_model` (app.py:419-425); note
`tools=tools if tools else None`: an empty tool list is collapsed to `None`. -/
def buildConfig (sysInstr : String) (use_search_tool : Bool)
    (temperature : Rat) (max_tokens : Int) : GenerateContentConfig :=
  let tools := buildTools use_search_tool
  { system_instruction := sysInstr,
    tools := if tools.isEmpty then none else some tools,
    thinking_budget := -1,
    temperature := temperature,
    max_output_tokens := max_tokens }

/-- Python `str.strip()`: drop whitespace from both ends (executable embedding). -/
def pyStrip (s : String) : String :=
  String.mk ((((s.toList).dropWhile Char.isWhitespace).reverse.dropWhile
    Char.isWhitespace).reverse)

/-- A part of a response candidate's content (`p.text` may be missing/None). -/
structure RespPart where
  text : Option String
deriving DecidableEq, Repr

/-- A candidate's `content` (its `parts` may be missing/None). -/
structure RespContent where
  parts : Option (List RespPart)
deriving DecidableEq, Repr

/-- A response candidate (`c.content` may be missing/None). -/
structure Candidate where
  content : Option RespContent
deriving DecidableEq, Repr

/-- The SDK response seen by `call_model`: `resp.text` and `resp.candidates`
may each be missing/None. -/
structure Response where
  text : Option String
  candidates : Option (List Candidate)
deriving DecidableEq, Repr

/-- Outcome of the external `client.models.generate_content` call: either a
raised exception (rendered as its message string) or a response value. -/
inductive GatewayOutcome where
  | raise (msg : String)
  | respond (resp : Response)
deriving DecidableEq, Repr

/-- The parts a candidate contributes to the fallback scan (app.py:455):
`if getattr(c, "content", None) and c.content and getattr(c.content, "parts", None)`. -/
def candParts (c : Candidate) : List RespPart :=
  match c.content with
  | none => []
  | some cont => cont.parts.getD []

/-- Inner fallback loop (app.py:456-458): return the first part whose `text`
is truthy (present and non-empty). -/
def scanParts : List RespPart → Option String
  | [] => none
  | p :: ps => if p.text.getD "" = "" then scanParts ps else some (p.text.getD "")

/-- Outer fallback loop over candidates (app.py:454-458). -/
def scanCandidates : List Candidate → Option String
  | [] => none
  | c :: cs =>
    match scanParts (candParts c) with
    | some t => some t
    | none => scanCandidates cs

/-- Response post-processing in `call_model` (app.py:450-459): primary
`resp.text` when truthy, else scan candidates when present and non-empty,
else the `"(No text response)"` placeholder. -/
def extractResponseText (resp : Response) : String :=
  let text := resp.text.getD ""
  if text = "" then
    match resp.candidates with
    | some cs =>
      if cs.isEmpty then "(No text response)"
      else
        match scanCandidates cs with
        | some t => t
        | none => "(No text response)"
    | none => "(No text response)"
  else text

/-- `call_model` (app.py:408-461). `clientPresent` models `if not client`;
`gw` is the external model service, mapping the composed contents and config
to either a response or a raised exception. Every branch returns a string:
failures become error-message results. -/
def call_model (clientPresent : Bool) (sysInstr : String) (use_search_tool : Bool)
    (temperature : Rat) (max_tokens : Int)
    (coach_mode : Option String) (messages : List ChatMessage) (user_message : String)
    (gw : List Part → GenerateContentConfig → GatewayOutcome) : String :=
  if clientPresent = false then
    "Model not initialized—set GEMINI_API_KEY in Streamlit secrets."
  else
    let cfg := buildConfig sysInstr use_search_tool temperature max_tokens
    let parts := composeParts coach_mode messages user_message
    match gw parts cfg with
    | GatewayOutcome.raise e => "Model call failed: " ++ e
    | GatewayOutcome.respond resp => extractResponseText resp

/-- The texts of all candidate parts in scan order, flattened (spec view of
"any structured candidate/part list"; absent text fields read as ""). -/
def allPartTexts : List Candidate → List String
  | [] => []
  | c :: cs => (candParts c).map (fun p => p.text.getD "") ++ allPartTexts cs

/-- Declarative restatement of the Gateway contract, following the spec's
words: failures become `GatewayError`-style messages; on success the primary
text is returned when non-empty, otherwise the first non-empty text fragment
of the flattened candidate/part list, otherwise the placeholder. -/
def gatewaySpecResult (clientPresent : Bool) (outcome : GatewayOutcome) : String :=
  if clientPresent then
    match outcome with
    | GatewayOutcome.raise e => "Model call failed: " ++ e
    | GatewayOutcome.respond r =>
      let primary := r.text.getD ""
      if primary ≠ "" then primary
      else
        match (allPartTexts (r.candidates.getD [])).filter (fun t => t ≠ "") with
        | [] => "(No text response)"
        | t :: _ => t
  else "Model not initialized—set GEMINI_API_KEY in Streamlit secrets."

/-- One archived entry of `st.session_state.sessions` (app.py:581-588).
`msgRef` is the heap address of its message list: Python stores a list
object here, and `load` aliases it into the current session. -/
structure SessionRec where
  id : String
  created : String
  msgRef : Nat
  goals_count : Nat
  elapsed_sec : Int
  title : String
deriving DecidableEq, Repr

/-- The mutable Streamlit session state (app.py:241-254), with message lists
held in an explicit heap so that Python list aliasing is represented:
`heap.getD cur []` is `st.session_state.messages`. -/
structure AppState where
  heap : List (List ChatMessage)
  cur : Nat
  current_session_id : String
  session_start_ts : Int
  goals_count : Nat
  coach_mode : Option String
  sessions : List (String × SessionRec)
deriving DecidableEq, Repr

/-- Python dict assignment `d[k] = v`: replace the entry for `k` in place if
present (insertion order kept), else append. -/
def upsert (k : String) (v : SessionRec) : List (String × SessionRec) → List (String × SessionRec)
  | [] => [(k, v)]
  | (k0, v0) :: rest => if k0 = k then (k, v) :: rest else (k0, v0) :: upsert k v rest

/-- Python dict lookup `d[k]` / membership. -/
def lookupSession (k : String) : List (String × SessionRec) → Option SessionRec
  | [] => none
  | (k0, v0) :: rest => if k0 = k then some v0 else lookupSession k rest

/-- The current message list `st.session_state.messages`. -/
def currentMessages (s : AppState) : List ChatMessage :=
  s.heap.getD s.cur []

/-- `st.session_state.messages.append(m)`: in-place mutation of the list
object the current session points at (and of every alias of it). -/
def appendMessage (m : ChatMessage) (s : AppState) : AppState :=
  { s with heap := s.heap.set s.cur (currentMessages s ++ [m]) }

/-- `save_current_session` (app.py:579-588): archives the current session
under its timestamp-derived id. `list(st.session_state.messages)` allocates
a fresh copy, so the snapshot gets a fresh heap cell; the dict assignment
replaces any existing entry with the same id. `now` is `time.time()`. -/
def save_current_session (now : Int) (s : AppState) : AppState :=
  let sid := s.current_session_id
  { s with
    heap := s.heap ++ [currentMessages s],
    sessions := upsert sid
      { id := sid, created := sid, msgRef := s.heap.length,
        goals_count := s.goals_count,
        elapsed_sec := now - s.session_start_ts,
        title := "Session " ++ sid } s.sessions }

/-- The Load button handler (app.py:567-574): make an archived session
current. `st.session_state.messages = s["messages"]` binds the archived
list object itself — no copy — so `cur` becomes the archived `msgRef`.
The timer is restarted from `now`. -/
def loadHandler (sid : String) (now : Int) (s : AppState) : AppState :=
  match lookupSession sid s.sessions with
  | none => s
  | some rec =>
    { s with
      current_session_id := rec.id,
      cur := rec.msgRef,
      goals_count := rec.goals_count,
      session_start_ts := now,
      coach_mode := none }

/-- The Clear chat handler (app.py:536-541): rebind
`st.session_state.messages` to a fresh one-element list, clear the nudge,
zero the goals counter, restart the timer. -/
def clearChat (now : Int) (s : AppState) : AppState :=
  { s with
    heap := s.heap ++ [[ChatMessage.mk Role.assistant "Chat cleared. What next?"]],
    cur := s.heap.length,
    coach_mode := none,
    goals_count := 0,
    session_start_ts := now }

/-- The transcript object offered for download (app.py:508-515). -/
structure Transcript where
  id : String
  created : String
  messages : List ChatMessage
  elapsed_sec : Int
  goals_count : Nat
deriving DecidableEq, Repr

/-- Export / Utilities transcript (app.py:506-522): built from the current
session state; `elapsed_sec = int(time.time() - session_start_ts)`. -/
def exportTranscript (now : Int) (s : AppState) : Transcript :=
  { id := s.current_session_id,
    created := s.current_session_id,
    messages := currentMessages s,
    elapsed_sec := now - s.session_start_ts,
    goals_count := s.goals_count }

/-- Python `sub in s` for a non-empty needle, via `splitOn`. -/
def pyContains (s sub : String) : Bool :=
  (s.splitOn sub).length > 1

/-- The goal-detection keyword list of the send handler (app.py:467). -/
def goalKeywords : List String := ["goal", "learn", "master", "my goal"]

/-- The goals-counter heuristic of the send handler (app.py:467):
`"goal" in (st.session_state.coach_mode or "") and any(k in user_text.lower() ...)`. -/
def goalBump (coach_mode : Option String) (user_text : String) : Bool :=
  pyContains (coach_mode.getD "") "goal" &&
    goalKeywords.any (fun k => pyContains user_text.toLower k)

/-- Result of one run of the send handler: the new state, and whether
`call_model` was invoked. -/
structure SendResult where
  state : AppState
  modelCalled : Bool
deriving Repr

/-- The send handler (app.py:463-473): guarded by
`if send_clicked and user_text.strip():`. When it fires it appends the
stripped user message, maybe bumps the goals counter, calls the model with
the pending nudge and the (already updated) message list, appends the
assistant result, and clears the nudge unconditionally. -/
def sendHandler (send_clicked : Bool) (user_text : String)
    (clientPresent : Bool) (sysInstr : String) (use_search_tool : Bool)
    (temperature : Rat) (max_tokens : Int)
    (gw : List Part → GenerateContentConfig → GatewayOutcome)
    (s : AppState) : SendResult :=
  if send_clicked = true ∧ pyStrip user_text ≠ "" then
    let s1 := appendMessage (ChatMessage.mk Role.user (pyStrip user_text)) s
    let s2 := if goalBump s.coach_mode user_text then
        { s1 with goals_count := s1.goals_count + 1 } else s1
    let assistant_text := call_model clientPresent sysInstr use_search_tool
      temperature max_tokens s.coach_mode (currentMessages s2) (pyStrip user_text) gw
    let s3 := appendMessage (ChatMessage.mk Role.assistant assistant_text) s2
    { state := { s3 with coach_mode := none }, modelCalled := true }
  else
    { state := s, modelCalled := false }

/-- The observable content of the app state at wall-clock time `now`: the
heap indirection is resolved, so aliasing effects become visible content. -/
structure SessionView where
  id : String
  created : String
  messages : List ChatMessage
  goals_count : Nat
  elapsed_sec : Int
  title : String
deriving DecidableEq, Repr

/-- Observation of an `AppState`: current transcript, nudge, goals, elapsed
time at `now`, and the content (not the addresses) of every archived session. -/
structure Obs where
  messages : List ChatMessage
  current_session_id : String
  coach_mode : Option String
  goals_count : Nat
  elapsed : Int
  sessionsView : List (String × SessionView)
deriving DecidableEq, Repr

/-- Resolve one archived entry against the heap. -/
def viewEntry (heap : List (List ChatMessage)) (kv : String × SessionRec) :
    String × SessionView :=
  (kv.1,
    { id := kv.2.id, created := kv.2.created,
      messages := heap.getD kv.2.msgRef [],
      goals_count := kv.2.goals_count,
      elapsed_sec := kv.2.elapsed_sec,
      title := kv.2.title })

/-- Observe the state at time `now`. -/
def observe (now : Int) (s : AppState) : Obs :=
  { messages := currentMessages s,
    current_session_id := s.current_session_id,
    coach_mode := s.coach_mode,
    goals_count := s.goals_count,
    elapsed := now - s.session_start_ts,
    sessionsView := s.sessions.map (viewEntry s.heap) }

/-- Heap well-formedness: the current pointer and every archived pointer
are live heap addresses. Holds for every state the app constructs. -/
def WF (s : AppState) : Prop :=
  s.cur < s.heap.length ∧ ∀ kv ∈ s.sessions, kv.2.msgRef < s.heap.length

instance : DecidablePred WF := fun s => by
  unfold WF; infer_instance

/-! ### Helper lemmas -/

theorem foldl_append_map {α β : Type} (f : α → β) :
    ∀ (l : List α) (init : List β),
      l.foldl (fun acc x => acc ++ [f x]) init = init ++ l.map f
  | [], init => by simp
  | x :: xs, init => by
    simpa [List.foldl] using foldl_append_map f xs (init ++ [f x])

/-- The imperative parts construction decomposes into its three blocks. -/
theorem composeParts_eq_blocks (c : Option String) (msgs : List ChatMessage) (u : String) :
    composeParts c msgs u
      = nudgeParts c ++ historyParts msgs ++ [Part.mk ("User: " ++ u)] := by
  simp only [composeParts, historyParts]
  rw [foldl_append_map]
  simp

theorem getD_concat_self {α : Type} (l : List α) (x d : α) :
    (l ++ [x]).getD l.length d = x := by
  rw [List.getD_append_right _ _ _ _ (le_refl _)]
  simp

theorem lookup_upsert_self (k : String) (v : SessionRec) :
    ∀ l, lookupSession k (upsert k v l) = some v
  | [] => by simp [upsert, lookupSession]
  | (k0, v0) :: rest => by
    by_cases h : k0 = k
    · simp [upsert, h, lookupSession]
    · simp [upsert, h, lookupSession, lookup_upsert_self k v rest]

theorem upsert_upsert (k : String) (v1 v2 : SessionRec) :
    ∀ l, upsert k v2 (upsert k v1 l) = upsert k v2 l
  | [] => by simp [upsert]
  | (k0, v0) :: rest => by
    by_cases h : k0 = k
    · simp [upsert, h]
    · simp [upsert, h, upsert_upsert k v1 v2 rest]

theorem map_upsert_cong (k : String) (v v' : SessionRec)
    (F G : String × SessionRec → String × SessionView)
    (hv : F (k, v) = G (k, v')) :
    ∀ l, (∀ kv ∈ l, F kv = G kv) →
      (upsert k v l).map F = (upsert k v' l).map G
  | [], _ => by simp [upsert, hv]
  | (k0, v0) :: rest, hl => by
    by_cases h : k0 = k
    · simp only [upsert, if_pos h, List.map]
      rw [hv, List.map_congr_left (fun kv hkv => hl kv (List.mem_cons_of_mem _ hkv))]
    · simp only [upsert, if_neg h, List.map]
      rw [hl (k0, v0) (List.mem_cons_self _ _),
        map_upsert_cong k v v' F G hv rest
          (fun kv hkv => hl kv (List.mem_cons_of_mem _ hkv))]

theorem viewEntry_append (heap ext : List (List ChatMessage))
    (kv : String × SessionRec) (h : kv.2.msgRef < heap.length) :
    viewEntry (heap ++ ext) kv = viewEntry heap kv := by
  simp only [viewEntry]
  rw [List.getD_append _ _ _ _ h]

theorem scanParts_eq (ps : List RespPart) :
    scanParts ps
      = ((ps.map (fun p => p.text.getD "")).filter (fun t => t ≠ "")).head? := by
  induction ps with
  | nil => rfl
  | cons p ps ih =>
    by_cases h : p.text.getD "" = ""
    · simp [scanParts, h, ih]
    · simp [scanParts, h]

theorem scanCandidates_eq (cs : List Candidate) :
    scanCandidates cs
      = ((allPartTexts cs).filter (fun t => t ≠ "")).head? := by
  induction cs with
  | nil => rfl
  | cons c cs ih =>
    simp only [scanCandidates, allPartTexts, List.filter_append, List.head?_append]
    rw [scanParts_eq]
    cases h : ((candParts c).map (fun p => p.text.getD "")).filter (fun t => t ≠ "") with
    | nil => simpa [h] using ih
    | cons t ts => simp [h]

/-- The history block as the spec's words describe it (one segment per prior
message of the full history, empty-content messages skipped), used to compare
the claimed contract with the implemented one. -/
def specHistoryParts (messages : List ChatMessage) : List Part :=
  (messages.filter (fun m => m.content ≠ "")).map renderMsg

/-! ### Concrete fixtures for counterexamples and witnesses -/

/-- A pre-existing transcript message. -/
def m0 : ChatMessage := ChatMessage.mk Role.assistant "Hello"

/-- A message appended later. -/
def m1 : ChatMessage := ChatMessage.mk Role.user "more"

/-- A timestamp-derived session id as produced by `strftime("%Y%m%d-%H%M%S")`. -/
def sid0 : String := "20250101-120000"

/-- A small well-formed app state: one transcript message, no archives. -/
def s0 : AppState :=
  { heap := [[m0]], cur := 0, current_session_id := sid0,
    session_start_ts := 0, goals_count := 0, coach_mode := none, sessions := [] }

/-- `s0` with a pending coach nudge. -/
def sGoal : AppState := { s0 with coach_mode := some "goal" }

/-- A gateway that always raises (models a transport failure). -/
def gwRaise : List Part → GenerateContentConfig → GatewayOutcome :=
  fun _ _ => GatewayOutcome.raise "network unreachable"

/-! ### Claim C1 — segment ordering of the composed request -/

/-- C1 counterexample: the claim says history segments precede the new-turn
segments (history first, then nudge, then user text). In the code the coach
nudge is appended before the transcript: with a pending `"goal"` nudge and a
one-message history, the composed parts differ from the claimed order. -/
theorem c1_counterexample :
    composeParts (some "goal") [m0] "hi"
      ≠ historyParts [m0] ++ nudgeParts (some "goal") ++ [Part.mk ("User: hi")] := by
  decide

/-- C1 (amended): the composed request is the nudge segment (when a valid
nudge key is pending), then the history segments (last sixteen transcript
messages, in order), then the `"User: "`-prefixed user text, last. The nudge
precedes the history rather than following it, and there are no URL or
attachment segments in this implementation. -/
theorem c1_amended (c : Option String) (msgs : List ChatMessage) (u : String) :
    composeParts c msgs u
      = nudgeParts c ++ historyParts msgs ++ [Part.mk ("User: " ++ u)] :=
  composeParts_eq_blocks c msgs u

/-! ### Claim C2 — all-disabled tool configuration -/

/-- C2 counterexample: with search disabled, the configuration built by
`call_model` carries `tools = None` (the code collapses the empty list via
`tools if tools else None`), not the empty tool list the claim requires. -/
theorem c2_counterexample :
    (buildConfig "" false 1 2048).tools = none ∧
      (buildConfig "" false 1 2048).tools ≠ some [] :=
  ⟨rfl, by decide⟩

/-- C2 (amended): the representation is consistent, but it is `None`, not the
empty list: with search disabled the config's tool field is `none`, and with
search enabled it is the one-element Google-Search tool list. -/
theorem c2_amended (sysInstr : String) (u : Bool) (temp : Rat) (mt : Int) :
    (buildConfig sysInstr u temp mt).tools
      = if u then some [Tool.googleSearch] else none := by
  cases u <;> rfl

/-! ### Claim C7 — history segments of the composed request -/

/-- C7 counterexample: the claim says one history segment per prior message
of the full history with empty-content messages skipped. The code neither
skips empty messages (a lone empty user message still yields a segment) nor
keeps the full history (a seventeenth message is dropped by the `[-16:]`
truncation). -/
theorem c7_counterexample :
    (composeParts none [ChatMessage.mk Role.user ""] "hi"
        ≠ nudgeParts none ++ specHistoryParts [ChatMessage.mk Role.user ""]
            ++ [Part.mk ("User: hi")]) ∧
    (composeParts none (List.replicate 17 (ChatMessage.mk Role.user "x")) "hi"
        ≠ nudgeParts none
            ++ specHistoryParts (List.replicate 17 (ChatMessage.mk Role.user "x"))
            ++ [Part.mk ("User: hi")]) :=
  ⟨by decide, by decide⟩

/-- C7 (amended): the history block has one segment per message among the
last sixteen messages of the history (older messages are dropped), in order,
each rendered as text with a `"User: "`/`"Assistant: "` prefix;
empty-content messages are included, not skipped. For histories of at most
sixteen messages no message is omitted. -/
theorem c7_amended (c : Option String) (msgs : List ChatMessage) (u : String)
    (h : msgs.length ≤ 16) :
    composeParts c msgs u
      = nudgeParts c ++ msgs.map renderMsg ++ [Part.mk ("User: " ++ u)] := by
  rw [composeParts_eq_blocks]
  unfold historyParts
  rw [Nat.sub_eq_zero_of_le h, List.drop_zero]

/-- C7 witness: the amended statement at a concrete one-message history. -/
theorem c7_witness :
    ([m0].length ≤ 16) ∧
      composeParts none [m0] "q"
        = nudgeParts none ++ [m0].map renderMsg ++ [Part.mk ("User: " ++ "q")] :=
  ⟨by decide, c7_amended none [m0] "q" (by decide)⟩

/-! ### Claim C4 — gateway totality, failure conversion and text fallback -/

/-- Bridge between the imperative fallback scan and its declarative reading:
the early-return double loop returns exactly the first non-empty text of the
flattened candidate/part texts. -/
theorem extractResponseText_eq_spec (r : Response) :
    extractResponseText r
      = (if r.text.getD "" ≠ "" then r.text.getD ""
         else
           match (allPartTexts (r.candidates.getD [])).filter (fun t => t ≠ "") with
           | [] => "(No text response)"
           | t :: _ => t) := by
  unfold extractResponseText
  by_cases ht : r.text.getD "" = ""
  · simp only [ht, if_pos rfl, ne_eq, not_true_eq_false, if_false]
    cases hc : r.candidates with
    | none => rfl
    | some cs =>
      by_cases he : cs.isEmpty
      · have : cs = [] := List.isEmpty_iff.mp he
        subst this
        simp [allPartTexts]
      · simp only [he, if_false, Option.getD_some]
        rw [scanCandidates_eq]
        cases hf : (allPartTexts cs).filter (fun t => t ≠ "") with
        | nil => simp [hf]
        | cons t ts => simp [hf]
  · simp [ht]

/-- C4: `call_model` is total with the stated normalization. For every input
and every behaviour of the external service it returns a string equal to the
declarative Gateway contract: the fixed message when no client is
configured, `"Model call failed: "` plus the exception message when the call
raises, the primary text when non-empty, otherwise the first non-empty text
fragment of the candidate/part list, otherwise `"(No text response)"`. -/
theorem c4_gateway_total_and_fallback (clientPresent : Bool) (sysInstr : String)
    (use_search_tool : Bool) (temperature : Rat) (max_tokens : Int)
    (coach_mode : Option String) (messages : List ChatMessage) (user_message : String)
    (gw : List Part → GenerateContentConfig → GatewayOutcome) :
    call_model clientPresent sysInstr use_search_tool temperature max_tokens
        coach_mode messages user_message gw
      = gatewaySpecResult clientPresent
          (gw (composeParts coach_mode messages user_message)
            (buildConfig sysInstr use_search_tool temperature max_tokens)) := by
  cases clientPresent with
  | false => rfl
  | true =>
    cases hgw : gw (composeParts coach_mode messages user_message)
        (buildConfig sysInstr use_search_tool temperature max_tokens) with
    | raise e => simp [call_model, gatewaySpecResult, hgw]
    | respond r => simp [call_model, gatewaySpecResult, hgw, extractResponseText_eq_spec r]

/-! ### Claim C3 — archived sessions are immutable snapshots -/

/-- C3: the code contradicts the immutability of archived snapshots. `save`
does copy the message list, so the fresh archive holds `[m0]`; but the Load
handler binds the archived list object itself into the current session, so a
later append mutates the stored entry in place: afterwards the archived
content is `[m0, m1]`, no longer the snapshot `[m0]`. -/
theorem c3_load_aliasing_mutates_archive :
    ((loadHandler sid0 6 (save_current_session 5 s0)).sessions.map
        (fun kv => (loadHandler sid0 6 (save_current_session 5 s0)).heap.getD kv.2.msgRef []))
      = [[m0]] ∧
    ((appendMessage m1 (loadHandler sid0 6 (save_current_session 5 s0))).sessions.map
        (fun kv =>
          (appendMessage m1 (loadHandler sid0 6 (save_current_session 5 s0))).heap.getD
            kv.2.msgRef []))
      = [[m0, m1]] ∧
    ([[m0, m1]] : List (List ChatMessage)) ≠ [[m0]] :=
  ⟨by decide, by decide, by decide⟩

/-! ### Claim C5 — save never silently overwrites -/

/-- C5 counterexample: two saves of the same current session use the same
timestamp-derived key and the dict assignment replaces the entry: after
saving (messages `[m0]`, elapsed 10), appending `m1` and saving again, the
store holds exactly one entry, the second snapshot (messages `[m0, m1]`,
elapsed 20) — not both snapshots. -/
theorem c5_counterexample :
    (save_current_session 20 (appendMessage m1 (save_current_session 10 s0))).sessions.length
      = 1 ∧
    ((save_current_session 20 (appendMessage m1 (save_current_session 10 s0))).sessions.map
        (fun kv =>
          ((save_current_session 20 (appendMessage m1 (save_current_session 10 s0))).heap.getD
              kv.2.msgRef [],
            kv.2.elapsed_sec)))
      = [([m0, m1], 20)] ∧
    ¬ (([m0, m1] : List ChatMessage) = [m0] ∧ (20 : Int) = 10) :=
  ⟨by decide, by decide, by decide⟩

/-- C5 (amended): a second save under the same key silently replaces the
first snapshot rather than disambiguating: observably, saving twice in a row
leaves the store (and the whole state) exactly as the single later save
would. -/
theorem c5_second_save_overwrites (s : AppState) (t1 t2 tO : Int) (hWF : WF s) :
    observe tO (save_current_session t2 (save_current_session t1 s))
      = observe tO (save_current_session t2 s) := by
  obtain ⟨hcur, hsess⟩ := hWF
  have hC : (s.heap ++ [s.heap.getD s.cur []]).getD s.cur []
      = s.heap.getD s.cur [] := List.getD_append _ _ _ _ hcur
  simp only [observe, save_current_session, currentMessages, Obs.mk.injEq]
  refine ⟨?_, by trivial, by trivial, by trivial, by trivial, ?_⟩
  · rw [List.getD_append _ _ _ _ (by simpa using Nat.lt_succ_of_lt hcur), hC]
  · rw [upsert_upsert]
    apply map_upsert_cong
    · simp only [viewEntry, hC]
      rw [getD_concat_self, getD_concat_self]
    · intro kv hkv
      have hlt : kv.2.msgRef < s.heap.length := hsess kv hkv
      rw [List.append_assoc]
      rw [viewEntry_append _ _ _ hlt, viewEntry_append _ _ _ hlt]

/-- C5 witness: the amended statement on a concrete well-formed state. -/
theorem c5_witness :
    WF s0 ∧
      observe 7 (save_current_session 3 (save_current_session 2 s0))
        = observe 7 (save_current_session 3 s0) :=
  ⟨by decide, c5_second_save_overwrites s0 2 3 7 (by decide)⟩

/-! ### Claim C6 — session round-trip -/

/-- C6 counterexample: save a session at time 100 (saved `elapsed_sec` is
100), load it and export immediately at time 150: the exported
`elapsed_sec` is 0, not the saved 100, because the Load handler restarts the
timer from the load instant. -/
theorem c6_counterexample :
    (exportTranscript 150 (loadHandler sid0 150 (save_current_session 100 s0))).elapsed_sec
      = 0 ∧
    ((save_current_session 100 s0).sessions.map (fun kv => kv.2.elapsed_sec)) = [100] ∧
    (0 : Int) ≠ 100 :=
  ⟨by decide, by decide, by decide⟩

/-- C6 (amended): `export(load(save(S)))` preserves the identifier (it is not
regenerated on load), the message list, and the goals count, but not the
elapsed time: exporting at time `tE` after loading at time `tL` yields
`elapsed_sec = tE - tL` — the timer restarts on load — regardless of the
elapsed time stored by the save. -/
theorem c6_round_trip_amended (s : AppState) (tS tL tE : Int) :
    exportTranscript tE (loadHandler s.current_session_id tL (save_current_session tS s))
      = { id := s.current_session_id, created := s.current_session_id,
          messages := currentMessages s, elapsed_sec := tE - tL,
          goals_count := s.goals_count } := by
  simp only [save_current_session, loadHandler, currentMessages]
  rw [lookup_upsert_self]
  simp only [exportTranscript, currentMessages, Transcript.mk.injEq]
  refine ⟨by trivial, by trivial, ?_, by trivial, by trivial⟩
  exact getD_concat_self _ _ _

/-! ### Claim C9 — Clear chat (Reset) is idempotent -/

/-- C9: clearing the chat is idempotent up to heap garbage — observably,
clearing twice in a row equals clearing once — and a clear zeroes the
elapsed time at the instant it runs and leaves the archived-session log
untouched. -/
theorem c9_clear_idempotent (s : AppState) (t1 t2 tO : Int) (hWF : WF s) :
    observe tO (clearChat t2 (clearChat t1 s)) = observe tO (clearChat t2 s) ∧
    (observe t2 (clearChat t2 s)).elapsed = 0 ∧
    (observe tO (clearChat t2 s)).sessionsView = (observe tO s).sessionsView := by
  obtain ⟨hcur, hsess⟩ := hWF
  refine ⟨?_, by simp [observe, clearChat], ?_⟩
  · simp only [observe, clearChat, currentMessages, Obs.mk.injEq]
    refine ⟨?_, by trivial, by trivial, by trivial, by trivial, ?_⟩
    · rw [getD_concat_self, getD_concat_self]
    · apply List.map_congr_left
      intro kv hkv
      have hlt : kv.2.msgRef < s.heap.length := hsess kv hkv
      rw [List.append_assoc]
      rw [viewEntry_append _ _ _ hlt, viewEntry_append _ _ _ hlt]
  · simp only [observe, clearChat]
    apply List.map_congr_left
    intro kv hkv
    exact viewEntry_append _ _ _ (hsess kv hkv)

/-- C9 witness: the statement on a concrete well-formed state. -/
theorem c9_witness :
    WF s0 ∧
      (observe 9 (clearChat 4 (clearChat 2 s0)) = observe 9 (clearChat 4 s0) ∧
        (observe 4 (clearChat 4 s0)).elapsed = 0 ∧
        (observe 9 (clearChat 4 s0)).sessionsView = (observe 9 s0).sessionsView) :=
  ⟨by decide, c9_clear_idempotent s0 2 4 9 (by decide)⟩

/-! ### Claim C8 — empty turns never reach the gateway -/

/-- C8: when the user text is empty after stripping, the send handler
short-circuits: the state is unchanged and `call_model` is not invoked, for
every gateway, configuration and state. -/
theorem c8_empty_turn_short_circuits (send_clicked : Bool) (user_text : String)
    (clientPresent : Bool) (sysInstr : String) (use_search_tool : Bool)
    (temperature : Rat) (max_tokens : Int)
    (gw : List Part → GenerateContentConfig → GatewayOutcome) (s : AppState)
    (h : pyStrip user_text = "") :
    sendHandler send_clicked user_text clientPresent sysInstr use_search_tool
        temperature max_tokens gw s
      = { state := s, modelCalled := false } := by
  unfold sendHandler
  rw [if_neg (fun hc => hc.2 h)]

/-- C8 witness: a whitespace-only send attempt leaves the state alone. -/
theorem c8_witness :
    pyStrip "   " = "" ∧
      sendHandler true "   " true "" false 1 2048 gwRaise s0
        = { state := s0, modelCalled := false } :=
  ⟨by decide,
    c8_empty_turn_short_circuits true "   " true "" false 1 2048 gwRaise s0 (by decide)⟩

/-! ### Claim C10 — nudges are one-shot -/

/-- C10: a send that fires clears the pending nudge unconditionally — for
every gateway behaviour, including a raising one (the model call "failing"
with an error-message result), the resulting state's coach mode is `none`,
so the nudge cannot be included in a second consecutive request. -/
theorem c10_nudge_consumed (user_text : String) (clientPresent : Bool) (sysInstr : String)
    (use_search_tool : Bool) (temperature : Rat) (max_tokens : Int)
    (gw : List Part → GenerateContentConfig → GatewayOutcome) (s : AppState)
    (h : pyStrip user_text ≠ "") :
    (sendHandler true user_text clientPresent sysInstr use_search_tool
        temperature max_tokens gw s).state.coach_mode = none := by
  unfold sendHandler
  rw [if_pos ⟨rfl, h⟩]

/-- C10 witness: with a pending `"goal"` nudge and a gateway that raises, the
nudge is still consumed. -/
theorem c10_witness :
    pyStrip "hi" ≠ "" ∧
      (sendHandler true "hi" true "" false 1 2048 gwRaise sGoal).state.coach_mode = none :=
  ⟨by decide, c10_nudge_consumed "hi" true "" false 1 2048 gwRaise sGoal (by decide)⟩

end Sylvia
